import Mathlib

/-!
Shallow embedding of `robottelo/vm.py` (class `VirtualMachine`, the
"Ephemeral Remote Resource Lifecycle Manager" of the specification).

Remote execution (`robottelo.ssh`) is modelled by an oracle giving the
`SSHCommandResult` of each issued command; every operation additionally
returns the list of remote operations it issued, in order.  Python
exceptions are modelled with an explicit error type (`Except`).  The
spec's error names map onto the code as follows: `ConfigurationError`,
`ProvisioningError` and `LifecycleError` are all `VirtualMachineError`
in the source; an unguarded list subscript raises Python's `IndexError`
and reading a never-assigned local raises Python's
`NameError`/`UnboundLocalError`, both distinct from
`VirtualMachineError`.
-/

namespace Robottelo

/-- Result of one remote command, mirroring `robottelo.ssh.SSHCommandResult`
(exit code plus captured stdout/stderr lines). -/
structure CommandResult where
  return_code : Int
  stdout : List String
  stderr : List String
deriving DecidableEq, Repr

/-- One remote operation issued through the `robottelo.ssh` collaborator.
The `Option String` is the `hostname` argument given to `ssh.command`,
`ssh.upload_file` or `ssh.download_file` (`none` means the ssh layer's
own default server is used, as in `ssh.command(u'puppet cert sign --all')`). -/
inductive RemoteOp where
  | command : String → Option String → RemoteOp
  | upload_file : String → Option String → Option String → RemoteOp
  | download_file : String → Option String → Option String → RemoteOp
deriving DecidableEq, Repr

/-- Python exceptions observable from `vm.py`:
`VirtualMachineError` (raised explicitly by the module, carrying its
message), `IndexError` (unguarded list subscript) and
`NameError`/`UnboundLocalError` (reading a local variable that was never
assigned on the executed branch). -/
inductive PyError where
  | virtualMachineError : String → PyError
  | indexError : PyError
  | nameError : PyError
deriving DecidableEq, Repr

/-- Whether an error is the module's own `VirtualMachineError` (the class
behind the spec's `ConfigurationError`/`ProvisioningError`/`LifecycleError`). -/
def PyError.isVirtualMachineError : PyError → Bool
  | .virtualMachineError _ => true
  | _ => false

/-- Environment oracle: the `SSHCommandResult` that the remote side returns
for a given command string and target hostname. -/
abbrev Oracle := String → Option String → CommandResult

/-- Modelled from the spec: the `robottelo.config` module (`settings`) is
not under `src/`.  Per spec section 6 the process-wide configuration provides the
default provisioning host (possibly absent, since `__init__` checks it for
`None`), the image storage directory, the two supported image identifiers
(`distro.image_el6`/`distro.image_el7`) and server credentials/hostname. -/
structure Settings where
  image_el6 : String
  image_el7 : String
  provisioning_server : Option String
  image_dir : String
  admin_username : String
  admin_password : String
  server_hostname : String
deriving DecidableEq, Repr

/-- Python truthiness of an optional string (`if x:`): `None` and `''` are
falsy, every other string is truthy. -/
def optTruthy : Option String → Bool
  | none => false
  | some s => !s.data.isEmpty

/-- Python `str.format` of an optional string: `None` prints as `"None"`. -/
def fmtOpt : Option String → String
  | none => "None"
  | some s => s

/-- Python 2 `repr` of a list of unicode strings, as produced by
`'{0}'.format(result.stderr)` (escaping inside the strings is not modelled;
no claim depends on this text). -/
def pyRepr (l : List String) : String :=
  "[" ++ String.intercalate ", " (l.map (fun s => "u\x27" ++ s ++ "\x27")) ++ "]"

/-- Python `os.path.join` restricted to two components, as used by
`destroy` (`os.path.join(self.image_dir, image_name)`). -/
def pyPathJoin (a b : String) : String :=
  if b.data.take 1 = ['/'] then b
  else if a.data.isEmpty then b
  else if a.data.getLast? = some '/' then a ++ b
  else a ++ "/" ++ b

/-- Python `str.split(sep)` for a one-character separator, on the character
list of the string: `splitChar c l` is the list of maximal groups of `l`
separated by `c` (always non-empty, `splitChar c [] = [[]]`). -/
def splitChar (sep : Char) : List Char → List (List Char)
  | [] => [[]]
  | c :: cs =>
    if c = sep then [] :: splitChar sep cs
    else
      match splitChar sep cs with
      | [] => [[c]]
      | g :: gs => (c :: g) :: gs

/-- Python `str.split(sep, 1)` (split at most once), as in
`self.provisioning_server.split('.', 1)`. -/
def pySplitOnce (sep : Char) (s : String) : List String :=
  match splitChar sep s.data with
  | [] => [s]
  | [_] => [s]
  | g :: gs => [String.mk g, String.intercalate (String.mk [sep]) (gs.map String.mk)]

/-- Parse of the virtual machine address out of the joined ping output:
`output.split('(')[1].split(')')[0]`.  The subscript `[1]` raises
`IndexError` when the output contains no `'('`; the subscript `[0]` always
succeeds because `split` returns at least one group. -/
def parseIpAddr (output : List Char) : Except PyError (List Char) :=
  match splitChar '(' output with
  | _ :: afterParen :: _ => .ok ((splitChar ')' afterParen).headD [])
  | _ => .error .indexError

/-- State of a `VirtualMachine` instance: exactly the attributes assigned by
`__init__` (`cpu`, `ram`, `distro`, `provisioning_server`, `image_dir`,
`_hostname`, `ip_addr`, `_domain`, `_created`, `_subscribed`,
`_target_image`).  `image_dir` is a plain `String` because the configuration
always supplies a default image directory (spec sections 3 and 6), so
`self.image_dir` is never `None`. -/
structure VirtualMachine where
  cpu : Nat
  ram : Nat
  distro : String
  provisioning_server : String
  image_dir : String
  hostnameArg : Option String
  ip_addr : Option String
  domainArg : Option String
  createdFlag : Bool
  subscribedFlag : Bool
  targetImageAttr : String
deriving DecidableEq, Repr

/-- Arguments of `VirtualMachine.__init__`, with their source defaults;
`instance_id` models `str(id(self))`, the per-instance unique suffix. -/
structure InitArgs where
  cpu : Nat := 1
  ram : Nat := 512
  distro : Option String := none
  provisioning_server : Option String := none
  image_dir : Option String := none
  tag : Option String := none
  hostname : Option String := none
  domain : Option String := none
  target_image : Option String := none
  instance_id : String
deriving DecidableEq, Repr

/-- Error message of the provisioning-server check in `__init__`. -/
def provisioningServerMsg : String :=
  "A provisioning server must be provided. Make sure to fill \"provisioning_server\" on clients section of your robottelo configuration. Or provide a not None provisioning_server argument."

/-- Error message of the distro check in `__init__`. -/
def unsupportedDistroMsg (st : Settings) (d : String) : String :=
  d ++ " is not a supported distro. Choose one of " ++ st.image_el6 ++ ", " ++ st.image_el7

/-- Sequential distro resolution of `__init__`: `'rhel6'` is replaced by
`settings.distro.image_el6`, then `'rhel7'` (which at that point may also be
the just-substituted el6 image name) by `image_el7`, then `None` defaults to
`image_el7`. -/
def resolveDistro (st : Settings) (d : Option String) : String :=
  let d1 := if d = some "rhel6" then some st.image_el6 else d
  let d2 := if d1 = some "rhel7" then some st.image_el7 else d1
  match d2 with
  | none => st.image_el7
  | some s => s

/-- Provisioning server resolution of `__init__`: the explicit argument
when given, otherwise the configured default. -/
def provResolved (st : Settings) (a : InitArgs) : Option String :=
  match a.provisioning_server with
  | none => st.provisioning_server
  | some p => some p

/-- Target-image name computed by `__init__`:
`target_image or str(id(self))`, prefixed by `tag` when truthy. -/
def targetImageInit (a : InitArgs) : String :=
  let ti0 := if optTruthy a.target_image then a.target_image.getD "" else a.instance_id
  if optTruthy a.tag then a.tag.getD "" ++ ti0 else ti0

/-- `VirtualMachine.__init__`: validates the distro against the two
configured base images, resolves and validates the provisioning server
(non-`None` and non-empty), stores the image directory, and initializes
`ip_addr = None`, `_created = False`, `_subscribed = False` and the
target-image name. -/
def VirtualMachine.init (st : Settings) (a : InitArgs) : Except PyError VirtualMachine :=
  if resolveDistro st a.distro = st.image_el6 ∨ resolveDistro st a.distro = st.image_el7 then
    match provResolved st a with
    | none => .error (.virtualMachineError provisioningServerMsg)
    | some p =>
      if p = "" then .error (.virtualMachineError provisioningServerMsg)
      else
        .ok { cpu := a.cpu, ram := a.ram, distro := resolveDistro st a.distro,
              provisioning_server := p,
              image_dir := a.image_dir.getD st.image_dir,
              hostnameArg := a.hostname, ip_addr := none, domainArg := a.domain,
              createdFlag := false, subscribedFlag := false,
              targetImageAttr := targetImageInit a }
  else
    .error (.virtualMachineError (unsupportedDistroMsg st (resolveDistro st a.distro)))

/-- The `domain` property: the explicit `_domain` if given, otherwise the
provisioning server name with its first label stripped
(`provisioning_server.split('.', 1)[1]`, raising `VirtualMachineError`
when there is no dot). -/
def VirtualMachine.domainE (vm : VirtualMachine) : Except PyError String :=
  match vm.domainArg with
  | some d => .ok d
  | none =>
    match pySplitOnce '.' vm.provisioning_server with
    | _ :: d :: _ => .ok d
    | _ => .error (.virtualMachineError
        ("Failed to fetch domain from provisioning server: " ++ vm.provisioning_server ++ " "))

/-- The `hostname` property: the explicit `_hostname` when truthy, otherwise
`'{_target_image}.{domain}'`. -/
def VirtualMachine.hostnameE (vm : VirtualMachine) : Except PyError String :=
  if optTruthy vm.hostnameArg then .ok (vm.hostnameArg.getD "")
  else
    match vm.domainE with
    | .ok d => .ok (vm.targetImageAttr ++ "." ++ d)
    | .error e => .error e

/-- The `target_image` property: `_target_image` when `_hostname` is truthy,
otherwise the derived `hostname`. -/
def VirtualMachine.target_imageE (vm : VirtualMachine) : Except PyError String :=
  if optTruthy vm.hostnameArg then .ok vm.targetImageAttr
  else vm.hostnameE

/-- The snap-guest invocation built by `create` from the command-argument
list joined with spaces and `str.format`-substituted.  The `-p` flag is
always present because `self.image_dir` is never `None` (see
`VirtualMachine`); `--hostname` and `-d` are appended exactly when the
respective constructor argument was not `None`. -/
def snapGuestCommand (vm : VirtualMachine) (ti hn dm : String) : String :=
  "snap-guest -b " ++ vm.distro ++ "-base -t " ++ ti
    ++ " -m " ++ toString vm.ram ++ " -c " ++ toString vm.cpu
    ++ " -n bridge=br0 -f -p " ++ vm.image_dir
    ++ (if vm.hostnameArg.isSome then " --hostname " ++ hn else "")
    ++ (if vm.domainArg.isSome then " -d " ++ dm else "")

/-- The reachability probe issued by `create`:
`ping -c 1 {_target_image}.local` (note: the raw `_target_image`
attribute, not the `target_image` property). -/
def VirtualMachine.pingCommand (vm : VirtualMachine) : String :=
  "ping -c 1 " ++ vm.targetImageAttr ++ ".local"

/-- `VirtualMachine.create`: no-op when `_created`; otherwise evaluates the
`target_image`/`hostname`/`domain` properties (the `str.format` call
evaluates every keyword argument, so a non-derivable domain raises before
any remote command), runs snap-guest on the provisioning server, raises
`VirtualMachineError` on non-zero exit, probes reachability with ping,
raises `VirtualMachineError` on non-zero exit, parses the address out of
the joined ping stdout, then sets `ip_addr` and `_created`. -/
def VirtualMachine.create (o : Oracle) (vm : VirtualMachine) :
    Except PyError VirtualMachine × List RemoteOp :=
  if vm.createdFlag then (.ok vm, [])
  else
    match vm.target_imageE, vm.hostnameE, vm.domainE with
    | .ok ti, .ok hn, .ok dm =>
      let command := snapGuestCommand vm ti hn dm
      let res1 := o command (some vm.provisioning_server)
      if res1.return_code ≠ 0 then
        (.error (.virtualMachineError ("Failed to run snap-guest: " ++ pyRepr res1.stderr)),
         [.command command (some vm.provisioning_server)])
      else
        let res2 := o vm.pingCommand (some vm.provisioning_server)
        let tr := [RemoteOp.command command (some vm.provisioning_server),
                   RemoteOp.command vm.pingCommand (some vm.provisioning_server)]
        if res2.return_code ≠ 0 then
          (.error (.virtualMachineError "Failed to fetch virtual machine IP address information"),
           tr)
        else
          match parseIpAddr (String.join res2.stdout).data with
          | .error e => (.error e, tr)
          | .ok ip =>
            (.ok { vm with ip_addr := some (String.mk ip), createdFlag := true }, tr)
    | .error e, _, _ => (.error e, [])
    | _, .error e, _ => (.error e, [])
    | _, _, .error e => (.error e, [])

/-- `VirtualMachine.run`: raises `VirtualMachineError` when the machine was
not created, otherwise executes the command against `ip_addr`.  The result
is returned unmodified; its exit code is never inspected here. -/
def VirtualMachine.run (o : Oracle) (vm : VirtualMachine) (cmd : String) :
    Except PyError CommandResult × List RemoteOp :=
  if !vm.createdFlag then
    (.error (.virtualMachineError
      "The virtual machine should be created before running any ssh command"), [])
  else
    (.ok (o cmd vm.ip_addr), [.command cmd vm.ip_addr])

/-- `VirtualMachine.get`: raises `VirtualMachineError` when not created,
otherwise downloads the remote file via `ssh.download_file`. -/
def VirtualMachine.get (vm : VirtualMachine) (remote_path : String)
    (local_path : Option String) : Except PyError Unit × List RemoteOp :=
  if !vm.createdFlag then
    (.error (.virtualMachineError
      "The virtual machine should be created before getting any file"), [])
  else
    (.ok (), [.download_file remote_path local_path vm.ip_addr])

/-- `VirtualMachine.put`: raises `VirtualMachineError` when not created,
otherwise uploads the local file via `ssh.upload_file`. -/
def VirtualMachine.put (vm : VirtualMachine) (local_path : String)
    (remote_path : Option String) : Except PyError Unit × List RemoteOp :=
  if !vm.createdFlag then
    (.error (.virtualMachineError
      "The virtual machine should be created before putting any file"), [])
  else
    (.ok (), [.upload_file local_path remote_path vm.ip_addr])

/-- `VirtualMachine.unregister`: runs `subscription-manager unregister` on
the machine; it does not change `_subscribed`. -/
def VirtualMachine.unregister (o : Oracle) (vm : VirtualMachine) :
    Except PyError CommandResult × List RemoteOp :=
  vm.run o "subscription-manager unregister"

/-- `VirtualMachine.destroy`: no-op when not `_created`; otherwise
unregisters first when `_subscribed` (result ignored), then issues
`virsh destroy`, `virsh undefine` and `rm` of the backing image against the
provisioning server, ignoring every result.  No attribute is assigned:
`_created`, `_subscribed` and `ip_addr` keep their values. -/
def VirtualMachine.destroy (o : Oracle) (vm : VirtualMachine) :
    Except PyError VirtualMachine × List RemoteOp :=
  if !vm.createdFlag then (.ok vm, [])
  else
    let trU : List RemoteOp :=
      if vm.subscribedFlag then [.command "subscription-manager unregister" vm.ip_addr] else []
    match vm.target_imageE with
    | .error e => (.error e, trU)
    | .ok ti =>
      (.ok vm,
       trU ++ [RemoteOp.command ("virsh destroy " ++ ti) (some vm.provisioning_server),
               RemoteOp.command ("virsh undefine " ++ ti) (some vm.provisioning_server),
               RemoteOp.command ("rm " ++ pyPathJoin vm.image_dir (ti ++ ".img"))
                 (some vm.provisioning_server)])

/-- Release-version suffix of the registration command
(`' --release {0}'` when `releasever is not None`). -/
def relSuffix : Option String → String
  | none => ""
  | some r => " --release " ++ r

/-- Force suffix of the registration command (`' --force'` when `force`). -/
def forceSuffix (force : Bool) : String :=
  if force then " --force" else ""

/-- Error message raised by `register_contenthost` when neither an
activation key nor a lifecycle environment is supplied. -/
def registerStrategyMsg : String :=
  "Please provide either activation key or lifecycle environment name to successfully register a host"

/-- `VirtualMachine.register_contenthost`: builds the
`subscription-manager register` command (activation key takes precedence
over lifecycle environment; with neither, raises `VirtualMachineError`
before any remote command), runs it once, sets `_subscribed = True` exactly
when the command exited 0, and returns the raw result in every case. -/
def VirtualMachine.register_contenthost (o : Oracle) (st : Settings) (vm : VirtualMachine)
    (org : String) (activation_key : Option String) (lce : Option String)
    (force : Bool) (releasever : Option String) :
    Except PyError (CommandResult × VirtualMachine) × List RemoteOp :=
  let cmd0 := "subscription-manager register --org " ++ org
  let finish : String → Except PyError (CommandResult × VirtualMachine) × List RemoteOp :=
    fun cmd1 =>
      let cmd2 := cmd1 ++ relSuffix releasever ++ forceSuffix force
      match vm.run o cmd2 with
      | (.error e, tr) => (.error e, tr)
      | (.ok res, tr) =>
        (.ok (res, if res.return_code = 0 then { vm with subscribedFlag := true } else vm), tr)
  match activation_key, lce with
  | some ak, _ => finish (cmd0 ++ " --activationkey " ++ ak)
  | none, some l => finish (cmd0 ++ " --environment " ++ l ++ " --username "
      ++ st.admin_username ++ " --password " ++ st.admin_password)
  | none, none => (.error (.virtualMachineError registerStrategyMsg), [])

/-- `VirtualMachine.download_install_rpm`: wget the rpm, install it
(results of both unchecked), then query it; a non-zero query raises
`VirtualMachineError` naming the package. -/
def VirtualMachine.download_install_rpm (o : Oracle) (vm : VirtualMachine)
    (repo_url package_name : String) : Except PyError Unit × List RemoteOp :=
  match vm.run o ("wget -nd -r -l1 --no-parent -A \x27" ++ package_name ++ ".rpm\x27 "
      ++ repo_url) with
  | (.error e, tr) => (.error e, tr)
  | (.ok _, tr1) =>
    match vm.run o ("rpm -i " ++ package_name ++ ".rpm") with
    | (.error e, tr2) => (.error e, tr1 ++ tr2)
    | (.ok _, tr2) =>
      match vm.run o ("rpm -q " ++ package_name) with
      | (.error e, tr3) => (.error e, tr1 ++ tr2 ++ tr3)
      | (.ok res, tr3) =>
        if res.return_code ≠ 0 then
          (.error (.virtualMachineError ("Failed to install " ++ package_name ++ " rpm.")),
           tr1 ++ tr2 ++ tr3)
        else (.ok (), tr1 ++ tr2 ++ tr3)

/-- `VirtualMachine.configure_rhel_repo`: a single unchecked wget of the
repo file (a `None` repo link formats as the string `"None"`). -/
def VirtualMachine.configure_rhel_repo (o : Oracle) (vm : VirtualMachine)
    (rhel_repo : Option String) : Except PyError CommandResult × List RemoteOp :=
  vm.run o ("wget -O /etc/yum.repos.d/rhel.repo " ++ fmtOpt rhel_repo)

/-- The puppet.conf fragment appended by `configure_puppet`. -/
def puppetConf (h : String) : String :=
  "pluginsync      = true\n" ++ "report          = true\n" ++ "ignoreschedules = true\n"
    ++ "daemon          = false\n" ++ "ca_server       = " ++ h ++ "\n"
    ++ "server          = " ++ h ++ "\n"

/-- `VirtualMachine.configure_puppet`: configures the rhel repo (result
unchecked), installs puppet (non-zero exit raises `VirtualMachineError`
naming the puppet rpm and stops the sequence), appends puppet.conf, runs
the agent, signs certificates on the satellite (plain `ssh.command`, no
hostname) and runs the agent again, all unchecked. -/
def VirtualMachine.configure_puppet (o : Oracle) (st : Settings) (vm : VirtualMachine)
    (rhel_repo : Option String) : Except PyError Unit × List RemoteOp :=
  match vm.configure_rhel_repo o rhel_repo with
  | (.error e, tr) => (.error e, tr)
  | (.ok _, tr1) =>
    match vm.run o "yum install puppet -y" with
    | (.error e, tr2) => (.error e, tr1 ++ tr2)
    | (.ok res, tr2) =>
      if res.return_code ≠ 0 then
        (.error (.virtualMachineError "Failed to install the puppet rpm"), tr1 ++ tr2)
      else
        match vm.run o ("echo \"" ++ puppetConf st.server_hostname
            ++ "\" >> /etc/puppet/puppet.conf") with
        | (.error e, tr3) => (.error e, tr1 ++ tr2 ++ tr3)
        | (.ok _, tr3) =>
          match vm.run o "puppet agent -t" with
          | (.error e, tr4) => (.error e, tr1 ++ tr2 ++ tr3 ++ tr4)
          | (.ok _, tr4) =>
            let tr5 : List RemoteOp := [.command "puppet cert sign --all" none]
            match vm.run o "puppet agent -t 2> /dev/null" with
            | (.error e, tr6) => (.error e, tr1 ++ tr2 ++ tr3 ++ tr4 ++ tr5 ++ tr6)
            | (.ok _, tr6) => (.ok (), tr1 ++ tr2 ++ tr3 ++ tr4 ++ tr5 ++ tr6)

/-- The awk command `execute_foreman_scap_client` uses to look the policy
id up in the client configuration file. -/
def scapLookupCommand : String :=
  "awk -F \"/\" \x27/download_path/ \x7bprint $4\x7d\x27 /etc/foreman_scap_client/config.yaml"

/-- `VirtualMachine.execute_foreman_scap_client`: with `policy_id=None`,
looks the id up (subscript `[0]` of its stdout raises `IndexError` when
empty), runs the scan, then checks `result.return_code` — where `result`
still holds the lookup result, not the scan result.  With an explicit
`policy_id`, runs the scan and then reads the local `result`, which was
never assigned on this branch: Python raises
`NameError`/`UnboundLocalError` unconditionally. -/
def VirtualMachine.execute_foreman_scap_client (o : Oracle) (vm : VirtualMachine)
    (policy_id : Option String) : Except PyError Unit × List RemoteOp :=
  match policy_id with
  | none =>
    match vm.run o scapLookupCommand with
    | (.error e, tr) => (.error e, tr)
    | (.ok res, tr1) =>
      match res.stdout with
      | [] => (.error .indexError, tr1)
      | pid :: _ =>
        match vm.run o ("foreman_scap_client " ++ pid) with
        | (.error e, tr2) => (.error e, tr1 ++ tr2)
        | (.ok _, tr2) =>
          if res.return_code ≠ 0 then
            (.error (.virtualMachineError "Failed to execute foreman_scap_client run."),
             tr1 ++ tr2)
          else (.ok (), tr1 ++ tr2)
  | some pid =>
    match vm.run o ("foreman_scap_client " ++ pid) with
    | (.error e, tr2) => (.error e, tr2)
    | (.ok _, tr2) => (.error .nameError, tr2)

/-! ## Spec-side lifecycle abstraction

The specification describes the resource by an abstract
`lifecycleState ∈ {Uninitialized, Created, Destroyed}`: construction
yields `Uninitialized`, step 6 of a (really performed) successful
`create()` sets `Created`, and a completed `destroy()` of a created
resource sets `Destroyed`.  The code itself has no such attribute — only
`_created` — so the following wrappers pair the faithful code state with
the spec's lifecycle value, updated exactly as the spec's words describe,
in order to state the lifecycle claims. -/

/-- The spec's abstract lifecycle state (spec section 3). -/
inductive Lifecycle where
  | uninitialized
  | created
  | destroyed
deriving DecidableEq, Repr

/-- A code-level `VirtualMachine` paired with the spec's `lifecycleState`. -/
structure SpecVM where
  vm : VirtualMachine
  lifecycleState : Lifecycle
deriving DecidableEq, Repr

/-- `create()` with the spec lifecycle attached: a create that actually
provisions (i.e. ran with `_created = False`) and succeeds sets `Created`;
the idempotent no-op and failures leave the lifecycle unchanged. -/
def specCreate (o : Oracle) (s : SpecVM) : Except PyError SpecVM × List RemoteOp :=
  match s.vm.create o with
  | (.ok vm1, tr) => (.ok ⟨vm1, if s.vm.createdFlag then s.lifecycleState else .created⟩, tr)
  | (.error e, tr) => (.error e, tr)

/-- `destroy()` with the spec lifecycle attached: a completed destroy of a
created resource sets `Destroyed`; the before-create no-op leaves the
lifecycle unchanged. -/
def specDestroy (o : Oracle) (s : SpecVM) : Except PyError SpecVM × List RemoteOp :=
  match s.vm.destroy o with
  | (.ok vm1, tr) => (.ok ⟨vm1, if s.vm.createdFlag then .destroyed else s.lifecycleState⟩, tr)
  | (.error e, tr) => (.error e, tr)

/-- `register_contenthost()` with the spec lifecycle attached (registration
never changes the lifecycle). -/
def specRegister (o : Oracle) (st : Settings) (s : SpecVM) (org : String)
    (ak lce : Option String) (force : Bool) (rel : Option String) :
    Except PyError (CommandResult × SpecVM) × List RemoteOp :=
  match s.vm.register_contenthost o st org ak lce force rel with
  | (.ok (res, vm1), tr) => (.ok (res, ⟨vm1, s.lifecycleState⟩), tr)
  | (.error e, tr) => (.error e, tr)

/-- Reachable instrumented states: a freshly constructed machine is
`Uninitialized`, and the state evolves by successful `create`, `destroy`
and `register_contenthost` calls (the only methods that assign any
attribute; a failing call leaves every attribute unchanged, and all other
methods never assign attributes, so they do not change the state). -/
inductive Reach (st : Settings) : SpecVM → Prop where
  | init : ∀ a vm, VirtualMachine.init st a = .ok vm → Reach st ⟨vm, .uninitialized⟩
  | step_create : ∀ o s s' tr, Reach st s → specCreate o s = (.ok s', tr) → Reach st s'
  | step_destroy : ∀ o s s' tr, Reach st s → specDestroy o s = (.ok s', tr) → Reach st s'
  | step_register : ∀ o s org ak lce f rel res s' tr, Reach st s →
      specRegister o st s org ak lce f rel = (.ok (res, s'), tr) → Reach st s'

/-- One operation of the caller's code inside a `with VirtualMachine()`
block: any public method call on the managed machine. -/
inductive VMOp where
  | createOp : VMOp
  | destroyOp : VMOp
  | runOp : String → VMOp
  | getOp : String → Option String → VMOp
  | putOp : String → Option String → VMOp
  | registerOp : String → Option String → Option String → Bool → Option String → VMOp

/-- Effect of one `VMOp` on the instrumented state; an exception raised by
the operation is captured so the surrounding block can propagate it. -/
def execOp (o : Oracle) (st : Settings) (s : SpecVM) :
    VMOp → (SpecVM × Option PyError) × List RemoteOp
  | .createOp =>
    match specCreate o s with
    | (.ok s', tr) => ((s', none), tr)
    | (.error e, tr) => ((s, some e), tr)
  | .destroyOp =>
    match specDestroy o s with
    | (.ok s', tr) => ((s', none), tr)
    | (.error e, tr) => ((s, some e), tr)
  | .runOp c =>
    match s.vm.run o c with
    | (.ok _, tr) => ((s, none), tr)
    | (.error e, tr) => ((s, some e), tr)
  | .getOp rp lp =>
    match s.vm.get rp lp with
    | (.ok _, tr) => ((s, none), tr)
    | (.error e, tr) => ((s, some e), tr)
  | .putOp lp rp =>
    match s.vm.put lp rp with
    | (.ok _, tr) => ((s, none), tr)
    | (.error e, tr) => ((s, some e), tr)
  | .registerOp org ak lce f rel =>
    match specRegister o st s org ak lce f rel with
    | (.ok (_, s'), tr) => ((s', none), tr)
    | (.error e, tr) => ((s, some e), tr)

/-- Caller's code between `__enter__` and `__exit__`: a sequence of method
calls, stopped by the first exception, optionally followed by an error of
the caller's own (`fin`). -/
def runBody (o : Oracle) (st : Settings) :
    SpecVM → List VMOp → Option PyError → (SpecVM × Option PyError) × List RemoteOp
  | s, [], fin => ((s, fin), [])
  | s, op :: ops, fin =>
    match execOp o st s op with
    | ((s', none), tr) =>
      let r := runBody o st s' ops fin
      ((r.1.1, r.1.2), tr ++ r.2)
    | ((s', some e), tr) => ((s', some e), tr)

/-- Scoped (`with`-statement) usage: `__enter__` calls `create()` (if it
raises, `__exit__` never runs), then the caller's body executes, then
`__exit__` calls `destroy()` unconditionally — on the normal path and on
the exception path alike; a body exception is re-raised after `destroy`. -/
def scopedRun (o : Oracle) (st : Settings) (s : SpecVM) (ops : List VMOp)
    (fin : Option PyError) : (SpecVM × Option PyError) × List RemoteOp :=
  match specCreate o s with
  | (.error e, tr) => ((s, some e), tr)
  | (.ok s1, tr) =>
    let r := runBody o st s1 ops fin
    match specDestroy o r.1.1 with
    | (.ok s3, trD) => ((s3, r.1.2), tr ++ r.2 ++ trD)
    | (.error e, trD) => ((r.1.1, some e), tr ++ r.2 ++ trD)

/-! ## Concrete fixtures for witnesses and counterexamples -/

/-- Concrete configuration used by the witnesses and counterexamples. -/
def stW : Settings :=
  { image_el6 := "rhel66", image_el7 := "rhel71",
    provisioning_server := some "provisioning.example.com",
    image_dir := "/opt/robottelo/images",
    admin_username := "admin", admin_password := "changeme",
    server_hostname := "sat6.example.com" }

/-- Concrete constructor arguments: all defaults, instance id `4242`. -/
def aW : InitArgs := { instance_id := "4242" }

/-- The machine `VirtualMachine.init stW aW` constructs. -/
def vm0W : VirtualMachine :=
  { cpu := 1, ram := 512, distro := "rhel71",
    provisioning_server := "provisioning.example.com",
    image_dir := "/opt/robottelo/images",
    hostnameArg := none, ip_addr := none, domainArg := none,
    createdFlag := false, subscribedFlag := false, targetImageAttr := "4242" }

/-- Oracle where every command succeeds and the ping output carries the
parenthesized address `(192.0.2.5)`. -/
def oGoodW : Oracle := fun c _ =>
  if c = "ping -c 1 4242.local" then
    { return_code := 0,
      stdout := ["PING 4242.local (192.0.2.5) 56(84) bytes of data."], stderr := [] }
  else { return_code := 0, stdout := [], stderr := [] }

/-- Oracle where every command fails with exit code 1. -/
def oBadW : Oracle := fun _ _ => { return_code := 1, stdout := [], stderr := ["boom"] }

/-- Oracle where every command succeeds but the ping output contains no
parenthesized token at all. -/
def oNoParenW : Oracle := fun _ _ =>
  { return_code := 0, stdout := ["64 bytes from 4242.local: icmp_seq=1 ttl=64"], stderr := [] }

/-- Oracle where the scap policy-id lookup succeeds (printing id `9`) and
every other command fails with exit code 1. -/
def oScapW : Oracle := fun c _ =>
  if c = scapLookupCommand then { return_code := 0, stdout := ["9"], stderr := [] }
  else { return_code := 1, stdout := [], stderr := [] }

/-- The machine after a successful `create` under `oGoodW`. -/
def vm1W : VirtualMachine := { vm0W with ip_addr := some "192.0.2.5", createdFlag := true }

/-- Instrumented state of the freshly constructed machine. -/
def s0W : SpecVM := ⟨vm0W, .uninitialized⟩

/-- Instrumented state after the successful `create`. -/
def s1W : SpecVM := ⟨vm1W, .created⟩

/-- Instrumented state after `destroy`: the spec lifecycle is `Destroyed`
while every code attribute (including `ip_addr` and `_created`) is
unchanged. -/
def s2W : SpecVM := ⟨vm1W, .destroyed⟩

/-! ## Helper lemmas -/

/-- `create` is a no-op returning the unchanged machine when `_created`. -/
lemma create_of_created {o : Oracle} {vm : VirtualMachine} (h : vm.createdFlag = true) :
    vm.create o = (.ok vm, []) := by
  simp [VirtualMachine.create, h]

/-- A successful first `create` evaluates the three derived properties,
issues exactly the snap-guest invocation and the ping probe, and only sets
`ip_addr` and `_created`. -/
lemma create_ok_shape {o : Oracle} {vm vm' : VirtualMachine} {tr : List RemoteOp}
    (h0 : vm.createdFlag = false) (h : vm.create o = (.ok vm', tr)) :
    ∃ ti hn dm ip,
      vm.target_imageE = .ok ti ∧ vm.hostnameE = .ok hn ∧ vm.domainE = .ok dm ∧
      vm' = { vm with ip_addr := some (String.mk ip), createdFlag := true } ∧
      tr = [RemoteOp.command (snapGuestCommand vm ti hn dm) (some vm.provisioning_server),
            RemoteOp.command vm.pingCommand (some vm.provisioning_server)] := by
  rw [VirtualMachine.create, h0] at h
  simp only [Bool.false_eq_true, if_false] at h
  split at h
  case h_2 e _ _ => exact absurd h (by simp)
  case h_3 e _ _ => exact absurd h (by simp)
  case h_4 e _ _ => exact absurd h (by simp)
  case h_1 ti hn dm hti hhn hdm =>
    split at h
    · exact absurd h (by simp)
    · split at h
      · exact absurd h (by simp)
      · split at h
        case h_1 e _ => exact absurd h (by simp)
        case h_2 ip hip =>
          obtain ⟨h1, h2⟩ := Prod.mk.injEq .. ▸ h
          refine ⟨ti, hn, dm, ip, hti, hhn, hdm, ?_, h2.symm⟩
          exact (Except.ok.injEq _ _ ▸ h1).symm

/-- `destroy` before `create` is a no-op: no remote command, no failure,
no state change. -/
lemma destroy_of_not_created {o : Oracle} {vm : VirtualMachine}
    (h : vm.createdFlag = false) : vm.destroy o = (.ok vm, []) := by
  simp [VirtualMachine.destroy, h]

/-- `destroy` of a created machine with a resolvable target image returns
the unchanged machine and issues (at most the unregistration and) the
`virsh destroy`, `virsh undefine` and `rm` commands, ignoring all their
results. -/
lemma destroy_of_created {o : Oracle} {vm : VirtualMachine} {ti : String}
    (h0 : vm.createdFlag = true) (hti : vm.target_imageE = .ok ti) :
    vm.destroy o = (.ok vm,
      (if vm.subscribedFlag then
        [RemoteOp.command "subscription-manager unregister" vm.ip_addr] else [])
      ++ [RemoteOp.command ("virsh destroy " ++ ti) (some vm.provisioning_server),
          RemoteOp.command ("virsh undefine " ++ ti) (some vm.provisioning_server),
          RemoteOp.command ("rm " ++ pyPathJoin vm.image_dir (ti ++ ".img"))
            (some vm.provisioning_server)]) := by
  simp [VirtualMachine.destroy, h0, hti]

/-- A machine whose `domain` property is derivable also has derivable
`hostname` and `target_image` properties. -/
lemma target_of_domain_ok {vm : VirtualMachine} {d : String}
    (h : vm.domainE = .ok d) : ∃ hn, vm.hostnameE = .ok hn ∧ ∃ ti, vm.target_imageE = .ok ti := by
  unfold VirtualMachine.hostnameE VirtualMachine.target_imageE
  cases hopt : optTruthy vm.hostnameArg with
  | true => simp [hopt, VirtualMachine.hostnameE, h]
  | false => simp [hopt, VirtualMachine.hostnameE, h]

/-- Characterization of a successful `specCreate`. -/
lemma specCreate_ok {o : Oracle} {s s' : SpecVM} {tr : List RemoteOp}
    (h : specCreate o s = (.ok s', tr)) :
    s.vm.create o = (.ok s'.vm, tr) ∧
      s'.lifecycleState = (if s.vm.createdFlag then s.lifecycleState else .created) := by
  unfold specCreate at h
  rcases hc : s.vm.create o with ⟨r, tr0⟩
  rw [hc] at h
  cases r with
  | ok vm1 =>
    simp only [Prod.mk.injEq, Except.ok.injEq] at h
    obtain ⟨h1, h2⟩ := h
    subst h2
    rw [← h1]
    exact ⟨rfl, rfl⟩
  | error e => simp at h

/-- Characterization of a successful `specDestroy`. -/
lemma specDestroy_ok {o : Oracle} {s s' : SpecVM} {tr : List RemoteOp}
    (h : specDestroy o s = (.ok s', tr)) :
    s.vm.destroy o = (.ok s'.vm, tr) ∧
      s'.lifecycleState = (if s.vm.createdFlag then .destroyed else s.lifecycleState) := by
  unfold specDestroy at h
  rcases hc : s.vm.destroy o with ⟨r, tr0⟩
  rw [hc] at h
  cases r with
  | ok vm1 =>
    simp only [Prod.mk.injEq, Except.ok.injEq] at h
    obtain ⟨h1, h2⟩ := h
    subst h2
    rw [← h1]
    exact ⟨rfl, rfl⟩
  | error e => simp at h

/-- Shape of a successful `register_contenthost`: it can only succeed on a
created machine, issues exactly one command, and the updated machine only
(possibly) has `_subscribed` set. -/
lemma register_ok_shape {o : Oracle} {st : Settings} {vm vm' : VirtualMachine}
    {org : String} {ak lce rel : Option String} {force : Bool}
    {res : CommandResult} {tr : List RemoteOp}
    (h : vm.register_contenthost o st org ak lce force rel = (.ok (res, vm'), tr)) :
    vm.createdFlag = true ∧
    ∃ c, res = o c vm.ip_addr ∧ tr = [RemoteOp.command c vm.ip_addr] ∧
      vm' = (if res.return_code = 0 then { vm with subscribedFlag := true } else vm) := by
  unfold VirtualMachine.register_contenthost at h
  cases hcr : vm.createdFlag with
  | false =>
    rcases ak with _ | a
    · rcases lce with _ | l
      · simp at h
      · simp only [VirtualMachine.run, hcr, Bool.not_false, if_pos] at h
        simp at h
    · simp only [VirtualMachine.run, hcr, Bool.not_false, if_pos] at h
      simp at h
  | true =>
    refine ⟨rfl, ?_⟩
    rcases ak with _ | a
    · rcases lce with _ | l
      · simp at h
      · simp only [VirtualMachine.run, hcr, Bool.not_true, Bool.false_eq_true, if_false,
          Prod.mk.injEq, Except.ok.injEq] at h
        obtain ⟨⟨h1, h2⟩, h3⟩ := h
        exact ⟨_, h1.symm, h3.symm, by rw [← h2, h1]⟩
    · simp only [VirtualMachine.run, hcr, Bool.not_true, Bool.false_eq_true, if_false,
        Prod.mk.injEq, Except.ok.injEq] at h
      obtain ⟨⟨h1, h2⟩, h3⟩ := h
      exact ⟨_, h1.symm, h3.symm, by rw [← h2, h1]⟩

/-- Fields of the machine constructed by `__init__`. -/
lemma init_ok_shape {st : Settings} {a : InitArgs} {vm : VirtualMachine}
    (h : VirtualMachine.init st a = .ok vm) :
    vm.createdFlag = false ∧ vm.ip_addr = none ∧ vm.subscribedFlag = false := by
  unfold VirtualMachine.init at h
  split at h
  · split at h
    · simp at h
    · split at h
      · simp at h
      · simp only [Except.ok.injEq] at h
        subst h
        exact ⟨rfl, rfl, rfl⟩
  · simp at h

/-- Invariant of reachable instrumented states: the spec lifecycle is
`Uninitialized` exactly when `_created` is false, `ip_addr` is set exactly
when `_created`, `_subscribed` implies `_created`, and a created machine
has a derivable `domain` (the `str.format` call in `create` evaluated it). -/
def Inv (s : SpecVM) : Prop :=
  (s.lifecycleState = .uninitialized ↔ s.vm.createdFlag = false) ∧
  (s.vm.ip_addr.isSome = s.vm.createdFlag) ∧
  (s.vm.subscribedFlag = true → s.vm.createdFlag = true) ∧
  (s.vm.createdFlag = true → ∃ d, s.vm.domainE = .ok d)

/-- Every reachable instrumented state satisfies the invariant. -/
lemma reach_inv {st : Settings} {s : SpecVM} (h : Reach st s) : Inv s := by
  induction h with
  | init a vm hinit =>
    obtain ⟨h1, h2, h3⟩ := init_ok_shape hinit
    exact ⟨by simp [h1], by simp [h1, h2], by simp [h3], by simp [h1]⟩
  | step_create o s s' tr _ hstep ih =>
    obtain ⟨hc, hl⟩ := specCreate_ok hstep
    cases hcr : s.vm.createdFlag with
    | true =>
      rw [create_of_created hcr] at hc
      obtain ⟨h1, h2⟩ := Prod.mk.injEq .. ▸ hc
      injection h1 with h1'
      have hvm : s'.vm = s.vm := h1'.symm
      rw [hcr, if_pos rfl] at hl
      obtain ⟨i1, i2, i3, i4⟩ := ih
      exact ⟨by rw [hl, hvm]; exact i1, by rw [hvm]; exact i2,
             by rw [hvm]; exact i3, by rw [hvm]; exact i4⟩
    | false =>
      obtain ⟨ti, hn, dm, ip, _, _, hdm, hvm', _⟩ := create_ok_shape hcr hc
      rw [hcr] at hl
      simp only [Bool.false_eq_true, if_false] at hl
      refine ⟨?_, ?_, ?_, ?_⟩
      · rw [hl]; simp [hvm']
      · rw [hvm']; rfl
      · rw [hvm']; intro _; rfl
      · rw [hvm']; intro _; exact ⟨dm, hdm⟩
  | step_destroy o s s' tr _ hstep ih =>
    obtain ⟨hc, hl⟩ := specDestroy_ok hstep
    obtain ⟨i1, i2, i3, i4⟩ := ih
    cases hcr : s.vm.createdFlag with
    | false =>
      rw [destroy_of_not_created hcr] at hc
      obtain ⟨h1, _⟩ := Prod.mk.injEq .. ▸ hc
      injection h1 with h1'
      have hvm : s'.vm = s.vm := h1'.symm
      rw [hcr] at hl
      simp only [Bool.false_eq_true, if_false] at hl
      exact ⟨by rw [hl, hvm]; exact i1, by rw [hvm]; exact i2,
             by rw [hvm]; exact i3, by rw [hvm]; exact i4⟩
    | true =>
      obtain ⟨d, hd⟩ := i4 hcr
      obtain ⟨_, _, ti, hti⟩ := target_of_domain_ok hd
      rw [destroy_of_created hcr hti] at hc
      obtain ⟨h1, _⟩ := Prod.mk.injEq .. ▸ hc
      injection h1 with h1'
      have hvm : s'.vm = s.vm := h1'.symm
      rw [hcr, if_pos rfl] at hl
      refine ⟨?_, by rw [hvm]; exact i2, by rw [hvm]; exact i3, by rw [hvm]; exact i4⟩
      rw [hl, hvm]
      simp [hcr]
  | step_register o s org ak lce f rel res s' tr _ hstep ih =>
    have hreg : s.vm.register_contenthost o st org ak lce f rel = (.ok (res, s'.vm), tr) ∧
        s'.lifecycleState = s.lifecycleState := by
      unfold specRegister at hstep
      rcases hc : s.vm.register_contenthost o st org ak lce f rel with ⟨r, tr0⟩
      rw [hc] at hstep
      cases r with
      | ok p =>
        rcases p with ⟨res0, vm1⟩
        simp only [Prod.mk.injEq, Except.ok.injEq] at hstep
        obtain ⟨⟨hr1, hr2⟩, hr3⟩ := hstep
        subst hr3
        rw [← hr1, ← hr2]
        exact ⟨rfl, rfl⟩
      | error e => simp at hstep
    obtain ⟨hc, hl⟩ := hreg
    obtain ⟨hcr, c, _, _, hvm'⟩ := register_ok_shape hc
    obtain ⟨i1, i2, i3, i4⟩ := ih
    have hfields : s'.vm.createdFlag = true ∧ s'.vm.ip_addr = s.vm.ip_addr ∧
        s'.vm.domainE = s.vm.domainE := by
      rw [hvm']
      split
      · exact ⟨hcr, rfl, rfl⟩
      · exact ⟨hcr, rfl, rfl⟩
    obtain ⟨f1, f2, f3⟩ := hfields
    refine ⟨?_, ?_, ?_, ?_⟩
    · rw [hl, f1]
      simp only [Bool.true_eq_false, iff_false]
      rw [i1, hcr]
      simp
    · rw [f2, f1, i2, hcr]
    · intro _; exact f1
    · intro _; rw [f3]; exact i4 hcr

/-- State of the managed machine inside a scoped block after a successful
enter: created, with derivable `domain` property. -/
def GoodVM (vm : VirtualMachine) : Prop :=
  vm.createdFlag = true ∧ ∃ d, vm.domainE = .ok d

/-- Every method call inside the block keeps the machine created with a
derivable domain: no method ever clears `_created` or touches the fields
the `domain` property reads. -/
lemma execOp_good {o : Oracle} {st : Settings} {s : SpecVM} {op : VMOp}
    (h : GoodVM s.vm) : GoodVM ((execOp o st s op).1.1).vm := by
  obtain ⟨hcr, d, hd⟩ := h
  cases op with
  | createOp =>
    simp only [execOp, specCreate, create_of_created hcr]
    exact ⟨hcr, d, hd⟩
  | destroyOp =>
    obtain ⟨_, _, ti, hti⟩ := target_of_domain_ok hd
    simp only [execOp, specDestroy, destroy_of_created hcr hti]
    exact ⟨hcr, d, hd⟩
  | runOp c =>
    simp only [execOp, VirtualMachine.run, hcr, Bool.not_true, Bool.false_eq_true, if_false]
    exact ⟨hcr, d, hd⟩
  | getOp rp lp =>
    simp only [execOp, VirtualMachine.get, hcr, Bool.not_true, Bool.false_eq_true, if_false]
    exact ⟨hcr, d, hd⟩
  | putOp lp rp =>
    simp only [execOp, VirtualMachine.put, hcr, Bool.not_true, Bool.false_eq_true, if_false]
    exact ⟨hcr, d, hd⟩
  | registerOp org ak lce f rel =>
    rcases ak with _ | a
    · rcases lce with _ | l
      · simp only [execOp, specRegister, VirtualMachine.register_contenthost]
        exact ⟨hcr, d, hd⟩
      · simp only [execOp, specRegister, VirtualMachine.register_contenthost,
          VirtualMachine.run, hcr, Bool.not_true, Bool.false_eq_true, if_false]
        split
        · exact ⟨rfl, d, hd⟩
        · exact ⟨hcr, d, hd⟩
    · simp only [execOp, specRegister, VirtualMachine.register_contenthost,
        VirtualMachine.run, hcr, Bool.not_true, Bool.false_eq_true, if_false]
      split
      · exact ⟨rfl, d, hd⟩
      · exact ⟨hcr, d, hd⟩

/-- `GoodVM` is preserved by any caller body. -/
lemma runBody_good {o : Oracle} {st : Settings} :
    ∀ {ops : List VMOp} {s : SpecVM} {fin : Option PyError}, GoodVM s.vm →
      GoodVM ((runBody o st s ops fin).1.1).vm := by
  intro ops
  induction ops with
  | nil => intro s fin h; exact h
  | cons op ops ih =>
    intro s fin h
    rcases he : execOp o st s op with ⟨⟨s', oe⟩, tr⟩
    have hg : GoodVM s'.vm := by
      have h2 := @execOp_good o st s op h
      rw [he] at h2
      exact h2
    cases oe with
    | none =>
      simp only [runBody, he]
      exact ih hg
    | some e =>
      simp only [runBody, he]
      exact hg

/-! ## Lemmas about the address parse -/

/-- Splitting a list that does not contain the separator yields one group. -/
lemma splitChar_of_not_mem {sep : Char} : ∀ {l : List Char}, sep ∉ l → splitChar sep l = [l] := by
  intro l
  induction l with
  | nil => intro _; rfl
  | cons c cs ih =>
    intro h
    have hc : c ≠ sep := fun he => h (he ▸ List.mem_cons_self c cs)
    simp only [splitChar, if_neg hc, ih (fun hm => h (List.mem_cons_of_mem c hm))]

/-- Splitting at the first separator occurrence: the part before it is the
first group. -/
lemma splitChar_append {sep : Char} : ∀ {l1 l2 : List Char}, sep ∉ l1 →
    splitChar sep (l1 ++ sep :: l2) = l1 :: splitChar sep l2 := by
  intro l1
  induction l1 with
  | nil => intro l2 _; simp [splitChar]
  | cons c cs ih =>
    intro l2 h
    have hc : c ≠ sep := fun he => h (he ▸ List.mem_cons_self c cs)
    simp only [List.cons_append, splitChar, if_neg hc, List.append_eq,
      ih (fun hm => h (List.mem_cons_of_mem c hm))]

/-- The first group of a split of `l1 ++ l2` with no separator in `l1`
starts with `l1`, continued by the first group of the split of `l2`. -/
lemma splitChar_first_group {sep : Char} : ∀ {l1 l2 : List Char}, sep ∉ l1 →
    ∃ t, splitChar sep (l1 ++ l2) = (l1 ++ (splitChar sep l2).headD []) :: t := by
  intro l1
  induction l1 with
  | nil =>
    intro l2 _
    cases hs : splitChar sep l2 with
    | nil =>
      exfalso
      revert hs
      induction l2 with
      | nil => simp [splitChar]
      | cons c cs ih2 =>
        simp only [splitChar]
        split
        · simp
        · split
          · simp
          · simp
    | cons g t => exact ⟨t, by simp [hs]⟩
  | cons c cs ih =>
    intro l2 h
    have hc : c ≠ sep := fun he => h (he ▸ List.mem_cons_self c cs)
    obtain ⟨t, hg⟩ := @ih l2 (fun hm => h (List.mem_cons_of_mem c hm))
    exact ⟨t, by simp only [List.cons_append, splitChar, if_neg hc, List.append_eq, hg]⟩

/-- The parse extracts exactly the first parenthesized token. -/
lemma parseIpAddr_token {pre tok suf : List Char}
    (hpre : '(' ∉ pre) (htok1 : '(' ∉ tok) (htok2 : ')' ∉ tok) :
    parseIpAddr (pre ++ '(' :: (tok ++ ')' :: suf)) = .ok tok := by
  obtain ⟨t, ht⟩ := @splitChar_first_group '(' tok (')' :: suf) htok1
  obtain ⟨t2, ht2⟩ := @splitChar_first_group '(' [')'] suf (by decide)
  simp only [List.cons_append, List.nil_append] at ht2
  rw [ht2] at ht
  simp only [List.headD_cons] at ht
  unfold parseIpAddr
  rw [splitChar_append hpre, ht]
  show Except.ok ((splitChar ')' (tok ++ ')' :: (splitChar '(' suf).headD [])).headD [])
      = Except.ok tok
  rw [splitChar_append htok2]
  simp

/-- The parse raises `IndexError` when the output contains no `'('`. -/
lemma parseIpAddr_no_paren {out : List Char} (h : '(' ∉ out) :
    parseIpAddr out = .error .indexError := by
  unfold parseIpAddr
  rw [splitChar_of_not_mem h]

/-- Whether a remote operation is the snap-guest provisioning invocation. -/
def isProvisionCmd (op : RemoteOp) : Bool :=
  match op with
  | .command c _ => List.isPrefixOf "snap-guest".data c.data
  | _ => false

/-- The snap-guest command is recognized as the provisioning invocation. -/
lemma isProvisionCmd_snap (vm : VirtualMachine) (ti hn dm : String) (hst : Option String) :
    isProvisionCmd (.command (snapGuestCommand vm ti hn dm) hst) = true := by
  show List.isPrefixOf "snap-guest".data (snapGuestCommand vm ti hn dm).data = true
  rw [List.isPrefixOf_iff_prefix]
  have h : (snapGuestCommand vm ti hn dm).data
      = "snap-guest -b ".data ++ ((vm.distro ++ "-base -t " ++ ti ++ " -m " ++ toString vm.ram
          ++ " -c " ++ toString vm.cpu ++ " -n bridge=br0 -f -p " ++ vm.image_dir
          ++ (if vm.hostnameArg.isSome then " --hostname " ++ hn else "")
          ++ (if vm.domainArg.isSome then " -d " ++ dm else "")).data) := by
    simp [snapGuestCommand, String.data_append]
  rw [h]
  exact List.IsPrefix.trans (by decide) (List.prefix_append _ _)

/-- The ping probe is not the provisioning invocation. -/
lemma isProvisionCmd_ping (vm : VirtualMachine) (hst : Option String) :
    isProvisionCmd (.command vm.pingCommand hst) = false := by
  show List.isPrefixOf "snap-guest".data vm.pingCommand.data = false
  rw [show vm.pingCommand.data
      = 'p' :: ("ing -c 1 " ++ vm.targetImageAttr ++ ".local").data from by
    simp [VirtualMachine.pingCommand, String.data_append]]
  rw [show "snap-guest".data = 's' :: "nap-guest".data from rfl]
  simp [List.isPrefixOf]

/-- The fixture state `s1W` (after one successful `create`) is reachable. -/
lemma reach_s1W : Reach stW s1W :=
  Reach.step_create oGoodW s0W s1W
    [RemoteOp.command
       "snap-guest -b rhel71-base -t 4242.example.com -m 512 -c 1 -n bridge=br0 -f -p /opt/robottelo/images"
       (some "provisioning.example.com"),
     RemoteOp.command "ping -c 1 4242.local" (some "provisioning.example.com")]
    (Reach.init aW vm0W rfl) rfl

/-- The fixture state `s2W` (create, then destroy with every remote command
failing) is reachable. -/
lemma reach_s2W : Reach stW s2W :=
  Reach.step_destroy oBadW s1W s2W
    [RemoteOp.command "virsh destroy 4242.example.com" (some "provisioning.example.com"),
     RemoteOp.command "virsh undefine 4242.example.com" (some "provisioning.example.com"),
     RemoteOp.command "rm /opt/robottelo/images/4242.example.com.img"
       (some "provisioning.example.com")]
    reach_s1W rfl

/-! ## Claim theorems -/

/-- C1: `destroy()` called before `create()` (`_created = False`) issues no
remote commands and does not fail; and from every reachable `Created`
state, `destroy()` — under every oracle, in particular one where the
unregistration and all three remote commands (stop, undefine, remove
backing image) fail — completes without error and the spec lifecycle
becomes `Destroyed`. -/
theorem claim_c1 (st : Settings) :
    (∀ (o : Oracle) (vm : VirtualMachine), vm.createdFlag = false →
       vm.destroy o = (.ok vm, [])) ∧
    (∀ (o : Oracle) (s : SpecVM), Reach st s → s.lifecycleState = .created →
       ((specDestroy o s).1.toOption).map SpecVM.lifecycleState = some .destroyed) := by
  refine ⟨fun o vm h => destroy_of_not_created h, fun o s hR hl => ?_⟩
  obtain ⟨i1, _, _, i4⟩ := reach_inv hR
  have hcr : s.vm.createdFlag = true := by
    cases hcb : s.vm.createdFlag with
    | true => rfl
    | false =>
      have h2 := i1.mpr hcb
      rw [hl] at h2
      exact absurd h2 (by decide)
  obtain ⟨d, hd⟩ := i4 hcr
  obtain ⟨_, _, ti, hti⟩ := target_of_domain_ok hd
  have hds := @destroy_of_created o s.vm ti hcr hti
  simp [specDestroy, hds, hcr]
  exact ⟨⟨s.vm, .destroyed⟩, rfl, rfl⟩

/-- C1 witness: the fixture machine before `create` destroys to a no-op,
and the created fixture state destroys to `Destroyed` under the
all-failing oracle. -/
theorem claim_c1_witness :
    (vm0W.destroy oBadW = (.ok vm0W, [])) ∧
    (((specDestroy oBadW s1W).1.toOption).map SpecVM.lifecycleState
       = some Lifecycle.destroyed) :=
  ⟨(claim_c1 stW).1 oBadW vm0W rfl, (claim_c1 stW).2 oBadW s1W reach_s1W rfl⟩

/-- C3: in scoped (`with`) usage, whenever enter (`create`) succeeds the
exit path invokes `destroy` unconditionally and the final lifecycle state
is `Destroyed` — for every caller body, including one that raises an
error (`fin`) or whose method calls fail mid-sequence. -/
theorem claim_c3 (o : Oracle) (st : Settings) (s s1 : SpecVM) (tr : List RemoteOp)
    (ops : List VMOp) (fin : Option PyError)
    (hR : Reach st s) (hc : specCreate o s = (.ok s1, tr)) :
    ((scopedRun o st s ops fin).1.1).lifecycleState = .destroyed := by
  obtain ⟨hcv, _⟩ := specCreate_ok hc
  have hg1 : GoodVM s1.vm := by
    cases hcr : s.vm.createdFlag with
    | true =>
      rw [create_of_created hcr] at hcv
      obtain ⟨h1, _⟩ := Prod.mk.injEq .. ▸ hcv
      injection h1 with h1'
      obtain ⟨_, _, _, i4⟩ := reach_inv hR
      exact ⟨h1' ▸ hcr, h1' ▸ (i4 hcr)⟩
    | false =>
      obtain ⟨ti, hn, dm, ip, _, _, hdm, hvm', _⟩ := create_ok_shape hcr hcv
      rw [hvm']
      exact ⟨rfl, dm, hdm⟩
  rcases hrb : runBody o st s1 ops fin with ⟨⟨s2, e2⟩, trB⟩
  have hg2 : GoodVM s2.vm := by
    have h2 := @runBody_good o st ops s1 fin hg1
    rw [hrb] at h2
    exact h2
  obtain ⟨hcr2, d2, hd2⟩ := hg2
  obtain ⟨_, _, ti2, hti2⟩ := target_of_domain_ok hd2
  have hds := @destroy_of_created o s2.vm ti2 hcr2 hti2
  simp [scopedRun, hc, hrb, specDestroy, hds, hcr2]

/-- C3 witness: a concrete scoped run whose body issues a command and then
raises ends with lifecycle `Destroyed`. -/
theorem claim_c3_witness :
    ((scopedRun oGoodW stW s0W [VMOp.runOp "ls"]
        (some (PyError.virtualMachineError "caller failure"))).1.1).lifecycleState
      = Lifecycle.destroyed :=
  claim_c3 oGoodW stW s0W s1W
    [RemoteOp.command
       "snap-guest -b rhel71-base -t 4242.example.com -m 512 -c 1 -n bridge=br0 -f -p /opt/robottelo/images"
       (some "provisioning.example.com"),
     RemoteOp.command "ping -c 1 4242.local" (some "provisioning.example.com")]
    [VMOp.runOp "ls"] (some (PyError.virtualMachineError "caller failure"))
    (Reach.init aW vm0W rfl) rfl

/-- C4 counterexample: the state reached by a successful `create` followed
by `destroy` is `Destroyed`, yet `ip_addr` is still set — `destroy`
assigns no attribute — so "resolvedAddress is set iff
`lifecycleState == Created`" fails on a reachable state. -/
theorem claim_c4_counterexample :
    ¬ (∀ s : SpecVM, Reach stW s →
        ((s.vm.ip_addr.isSome = true ↔ s.lifecycleState = .created) ∧
         (s.vm.subscribedFlag = true → s.lifecycleState ≠ .uninitialized))) := by
  intro h
  have h2 := (h s2W reach_s2W).1
  have h3 : s2W.lifecycleState = .created := h2.mp rfl
  exact absurd h3 (by decide)

/-- C4 amended: in every reachable state, `resolvedAddress` is set iff the
resource has been created (`lifecycleState` is `Created` or `Destroyed`,
i.e. not `Uninitialized`), and `registrationState` can be true only after
the resource was created. -/
theorem claim_c4_amended (st : Settings) (s : SpecVM) (hR : Reach st s) :
    (s.vm.ip_addr.isSome = true ↔ s.lifecycleState ≠ .uninitialized) ∧
    (s.vm.subscribedFlag = true → s.lifecycleState ≠ .uninitialized) := by
  obtain ⟨i1, i2, i3, _⟩ := reach_inv hR
  cases hcb : s.vm.createdFlag with
  | true =>
    have hip : s.vm.ip_addr.isSome = true := by rw [i2, hcb]
    have hnu : s.lifecycleState ≠ .uninitialized := by
      intro hu
      have h2 := i1.mp hu
      rw [h2] at hcb
      exact Bool.noConfusion hcb
    exact ⟨by simp [hip, hnu], fun _ => hnu⟩
  | false =>
    have hip : s.vm.ip_addr.isSome = false := by rw [i2, hcb]
    have hu : s.lifecycleState = .uninitialized := i1.mpr hcb
    refine ⟨by rw [hip, hu]; simp, fun hs => ?_⟩
    have h2 := i3 hs
    rw [h2] at hcb
    exact Bool.noConfusion hcb

/-- C4 witness: the amended invariant holds at the reachable created
fixture state. -/
theorem claim_c4_witness :
    (s1W.vm.ip_addr.isSome = true ↔ s1W.lifecycleState ≠ Lifecycle.uninitialized) ∧
    (s1W.vm.subscribedFlag = true → s1W.lifecycleState ≠ Lifecycle.uninitialized) :=
  claim_c4_amended stW s1W reach_s1W

/-- C6 counterexample: in the reachable `Destroyed` state (not `Created`),
`run` does not fail and issues a remote command — the code only checks the
never-cleared `_created` flag — so the claim quantified over all
non-`Created` states fails. -/
theorem claim_c6_counterexample :
    ¬ (∀ (s : SpecVM) (o : Oracle) (c : String), Reach stW s →
        s.lifecycleState ≠ .created →
        (s.vm.run o c).1.isOk = false ∧ (s.vm.run o c).2 = []) := by
  intro h
  have h2 := h s2W oBadW "ls" reach_s2W (by decide)
  have h3 : (s2W.vm.run oBadW "ls").1.isOk = true := rfl
  rw [h2.1] at h3
  exact Bool.noConfusion h3

/-- C6 amended: `run`, `get` (transferOut) and `put` (transferIn) called
before `create()` — `_created = False`, equivalently lifecycle
`Uninitialized` — fail with `VirtualMachineError` (`LifecycleError`) and
issue no remote operation. -/
theorem claim_c6_amended (vm : VirtualMachine) (o : Oracle) (c rp lp2 : String)
    (lp rp2 : Option String) (h : vm.createdFlag = false) :
    vm.run o c = (.error (.virtualMachineError
        "The virtual machine should be created before running any ssh command"), []) ∧
    vm.get rp lp = (.error (.virtualMachineError
        "The virtual machine should be created before getting any file"), []) ∧
    vm.put lp2 rp2 = (.error (.virtualMachineError
        "The virtual machine should be created before putting any file"), []) := by
  refine ⟨?_, ?_, ?_⟩ <;>
    simp [VirtualMachine.run, VirtualMachine.get, VirtualMachine.put, h]

/-- C6 witness: the three operations fail on the fresh fixture machine. -/
theorem claim_c6_witness :
    vm0W.run oBadW "ls" = (.error (.virtualMachineError
        "The virtual machine should be created before running any ssh command"), []) ∧
    vm0W.get "/etc/foo" none = (.error (.virtualMachineError
        "The virtual machine should be created before getting any file"), []) ∧
    vm0W.put "/tmp/bar" none = (.error (.virtualMachineError
        "The virtual machine should be created before putting any file"), []) :=
  claim_c6_amended vm0W oBadW "ls" "/etc/foo" "/tmp/bar" none none rfl

/-- C5: `create()` is idempotent — after a successful first `create`, the
second call is a no-op returning the unchanged machine and issuing no
remote operation; across the two calls the snap-guest provisioning
invocation appears exactly once (in the first call's trace). -/
theorem claim_c5 (o o2 : Oracle) (vm vm' : VirtualMachine) (tr : List RemoteOp)
    (h0 : vm.createdFlag = false) (h : vm.create o = (.ok vm', tr)) :
    vm'.create o2 = (.ok vm', []) ∧ tr.countP isProvisionCmd = 1 := by
  obtain ⟨ti, hn, dm, ip, _, _, _, hvm', htr⟩ := create_ok_shape h0 h
  constructor
  · exact create_of_created (by rw [hvm'])
  · rw [htr]
    simp [List.countP_cons, isProvisionCmd_snap, isProvisionCmd_ping]

/-- C5 witness: the fixture create under `oGoodW` provisions once; the
second call is a pure no-op. -/
theorem claim_c5_witness :
    vm1W.create oBadW = (.ok vm1W, []) ∧
    ([RemoteOp.command
        "snap-guest -b rhel71-base -t 4242.example.com -m 512 -c 1 -n bridge=br0 -f -p /opt/robottelo/images"
        (some "provisioning.example.com"),
      RemoteOp.command "ping -c 1 4242.local"
        (some "provisioning.example.com")].countP isProvisionCmd) = 1 :=
  claim_c5 oGoodW oBadW vm0W vm1W _ rfl rfl

/-- The registration command built for the activation-key strategy. -/
def regAkCmd (org ak : String) (rel : Option String) (force : Bool) : String :=
  "subscription-manager register --org " ++ org ++ " --activationkey " ++ ak
    ++ relSuffix rel ++ forceSuffix force

/-- The registration command built for the lifecycle-environment strategy
(administrator credentials from the configuration). -/
def regLceCmd (st : Settings) (org l : String) (rel : Option String) (force : Bool) : String :=
  "subscription-manager register --org " ++ org ++ " --environment " ++ l ++ " --username "
    ++ st.admin_username ++ " --password " ++ st.admin_password
    ++ relSuffix rel ++ forceSuffix force

/-- C7: `register_contenthost` with neither activation key nor lifecycle
environment fails with `VirtualMachineError` (`ConfigurationError`) and
issues no remote command, in every state; otherwise (on a created machine)
it runs exactly one registration command, sets `_subscribed = True` iff
that command exited 0 (otherwise the flag keeps its old value), and
returns the raw command result in every case. -/
theorem claim_c7 (o : Oracle) (st : Settings) (vm : VirtualMachine) (org a l : String)
    (lce rel : Option String) (force : Bool) :
    (vm.register_contenthost o st org none none force rel
        = (.error (.virtualMachineError registerStrategyMsg), [])) ∧
    (vm.createdFlag = true →
      (vm.register_contenthost o st org (some a) lce force rel
          = (.ok (o (regAkCmd org a rel force) vm.ip_addr,
              if (o (regAkCmd org a rel force) vm.ip_addr).return_code = 0
              then { vm with subscribedFlag := true } else vm),
             [RemoteOp.command (regAkCmd org a rel force) vm.ip_addr]) ∧
       vm.register_contenthost o st org none (some l) force rel
          = (.ok (o (regLceCmd st org l rel force) vm.ip_addr,
              if (o (regLceCmd st org l rel force) vm.ip_addr).return_code = 0
              then { vm with subscribedFlag := true } else vm),
             [RemoteOp.command (regLceCmd st org l rel force) vm.ip_addr]))) := by
  refine ⟨rfl, fun hcr => ⟨?_, ?_⟩⟩
  · simp only [VirtualMachine.register_contenthost, VirtualMachine.run, hcr, Bool.not_true,
      Bool.false_eq_true, if_false]
    rfl
  · simp only [VirtualMachine.register_contenthost, VirtualMachine.run, hcr, Bool.not_true,
      Bool.false_eq_true, if_false]
    rfl

/-- C7 witness: on the created fixture machine, the no-strategy call fails
without commands, and an activation-key call under the all-failing oracle
returns the raw failed result and leaves `_subscribed` false. -/
theorem claim_c7_witness :
    (vm1W.register_contenthost oBadW stW "Org1" none none true none
        = (.error (.virtualMachineError registerStrategyMsg), [])) ∧
    vm1W.register_contenthost oBadW stW "Org1" (some "ak1") none true none
        = (.ok (oBadW (regAkCmd "Org1" "ak1" none true) vm1W.ip_addr, vm1W),
           [RemoteOp.command (regAkCmd "Org1" "ak1" none true) vm1W.ip_addr]) := by
  have h := claim_c7 oBadW stW vm1W "Org1" "ak1" "lce1" none none true
  refine ⟨h.1, ?_⟩
  rw [(h.2 rfl).1]
  simp [oBadW]

/-- C8: each orchestration helper stops at the first result-checked command
that returns non-zero, raising `VirtualMachineError` (`LifecycleError`)
naming the step, with no subsequent command of the fixed sequence issued:
in `configure_puppet` a failed `yum install puppet -y` stops the sequence
after the repo wget and the install (the conf write, agent runs and cert
signing never execute); in `download_install_rpm` a failed `rpm -q` query
raises after the three commands. -/
theorem claim_c8 (o : Oracle) (st : Settings) (vm : VirtualMachine)
    (rhel_repo : Option String) (repo_url package_name : String)
    (hcr : vm.createdFlag = true) :
    ((o "yum install puppet -y" vm.ip_addr).return_code ≠ 0 →
      vm.configure_puppet o st rhel_repo
        = (.error (.virtualMachineError "Failed to install the puppet rpm"),
           [RemoteOp.command ("wget -O /etc/yum.repos.d/rhel.repo " ++ fmtOpt rhel_repo)
              vm.ip_addr,
            RemoteOp.command "yum install puppet -y" vm.ip_addr])) ∧
    ((o ("rpm -q " ++ package_name) vm.ip_addr).return_code ≠ 0 →
      vm.download_install_rpm o repo_url package_name
        = (.error (.virtualMachineError ("Failed to install " ++ package_name ++ " rpm.")),
           [RemoteOp.command ("wget -nd -r -l1 --no-parent -A \x27" ++ package_name
               ++ ".rpm\x27 " ++ repo_url) vm.ip_addr,
            RemoteOp.command ("rpm -i " ++ package_name ++ ".rpm") vm.ip_addr,
            RemoteOp.command ("rpm -q " ++ package_name) vm.ip_addr])) := by
  constructor
  · intro hy
    simp [VirtualMachine.configure_puppet, VirtualMachine.configure_rhel_repo,
      VirtualMachine.run, hcr, hy]
  · intro hq
    simp [VirtualMachine.download_install_rpm, VirtualMachine.run, hcr, hq]

/-- C8 witness: under the all-failing oracle both helpers stop with the
named error and the expected truncated traces. -/
theorem claim_c8_witness :
    vm1W.configure_puppet oBadW stW none
      = (.error (.virtualMachineError "Failed to install the puppet rpm"),
         [RemoteOp.command "wget -O /etc/yum.repos.d/rhel.repo None" vm1W.ip_addr,
          RemoteOp.command "yum install puppet -y" vm1W.ip_addr]) ∧
    vm1W.download_install_rpm oBadW "http://repo.example.com/x" "mypkg"
      = (.error (.virtualMachineError "Failed to install mypkg rpm."),
         [RemoteOp.command "wget -nd -r -l1 --no-parent -A \x27mypkg.rpm\x27 http://repo.example.com/x"
            vm1W.ip_addr,
          RemoteOp.command "rpm -i mypkg.rpm" vm1W.ip_addr,
          RemoteOp.command "rpm -q mypkg" vm1W.ip_addr]) := by
  have h := claim_c8 oBadW stW vm1W none "http://repo.example.com/x" "mypkg" rfl
  exact ⟨h.1 (by decide), h.2 (by decide)⟩

/-- C9: construction succeeds iff the distro argument resolves to one of
the two configured base images and a non-empty provisioning server is
resolvable; an unresolvable distro fails with `VirtualMachineError`
(`ConfigurationError`) naming it, a missing or empty provisioning server
fails with `VirtualMachineError`, and on success the machine starts
uninitialized (`_created = False`, no address, not subscribed). -/
theorem claim_c9 (st : Settings) (a : InitArgs) :
    ((VirtualMachine.init st a).isOk = true ↔
      ((resolveDistro st a.distro = st.image_el6 ∨ resolveDistro st a.distro = st.image_el7) ∧
        optTruthy (provResolved st a) = true)) ∧
    (¬(resolveDistro st a.distro = st.image_el6 ∨ resolveDistro st a.distro = st.image_el7) →
      VirtualMachine.init st a
        = .error (.virtualMachineError (unsupportedDistroMsg st (resolveDistro st a.distro)))) ∧
    ((resolveDistro st a.distro = st.image_el6 ∨ resolveDistro st a.distro = st.image_el7) →
      optTruthy (provResolved st a) = false →
      VirtualMachine.init st a = .error (.virtualMachineError provisioningServerMsg)) ∧
    (∀ vm, VirtualMachine.init st a = .ok vm →
      vm.createdFlag = false ∧ vm.ip_addr = none ∧ vm.subscribedFlag = false) := by
  refine ⟨?_, ?_, ?_, fun vm h => init_ok_shape h⟩
  · by_cases hd : (resolveDistro st a.distro = st.image_el6 ∨
        resolveDistro st a.distro = st.image_el7)
    · cases hp : provResolved st a with
      | none =>
        have hin : VirtualMachine.init st a
            = .error (.virtualMachineError provisioningServerMsg) := by
          simp only [VirtualMachine.init, if_pos hd, hp]
        rw [hin]
        simp [Except.isOk, Except.toBool, optTruthy, hp]
      | some p =>
        by_cases hpe : p = ""
        · subst hpe
          have hin : VirtualMachine.init st a
              = .error (.virtualMachineError provisioningServerMsg) := by
            simp only [VirtualMachine.init, if_pos hd, hp]
            simp
          rw [hin]
          simp [Except.isOk, Except.toBool, optTruthy, hp]
        · have hin : (VirtualMachine.init st a).isOk = true := by
            simp only [VirtualMachine.init, if_pos hd, hp, if_neg hpe]
            rfl
          rw [hin]
          have hne : p.data ≠ [] := fun hnil =>
            hpe (by cases p with | mk l => cases hnil; rfl)
          simp [optTruthy, hp, hd, List.isEmpty_iff, hne]
    · have hin : VirtualMachine.init st a = .error (.virtualMachineError
          (unsupportedDistroMsg st (resolveDistro st a.distro))) := by
        simp only [VirtualMachine.init, if_neg hd]
      rw [hin]
      simp [Except.isOk, Except.toBool, hd]
  · intro hd
    simp only [VirtualMachine.init, if_neg hd]
  · intro hd hp
    cases hpv : provResolved st a with
    | none => simp only [VirtualMachine.init, if_pos hd, hpv]
    | some p =>
      rw [hpv] at hp
      have hpe : p = "" := by
        cases p with
        | mk l =>
          cases l with
          | nil => rfl
          | cons c cs => exact absurd hp (by simp [optTruthy])
      subst hpe
      simp only [VirtualMachine.init, if_pos hd, hpv]
      simp

/-- C9 witness: the default fixture arguments construct successfully into
the uninitialized state, and an unsupported distro argument fails with the
naming error. -/
theorem claim_c9_witness :
    (VirtualMachine.init stW aW).isOk = true ∧
    (vm0W.createdFlag = false ∧ vm0W.ip_addr = none ∧ vm0W.subscribedFlag = false) ∧
    VirtualMachine.init stW { aW with distro := some "fedora" }
      = .error (.virtualMachineError
          "fedora is not a supported distro. Choose one of rhel66, rhel71") :=
  ⟨(claim_c9 stW aW).1.mpr (by decide),
   (claim_c9 stW aW).2.2.2 vm0W rfl,
   (claim_c9 stW { aW with distro := some "fedora" }).2.1 (by decide)⟩

/-- C10: `execute_foreman_scap_client` with an explicit policy id runs the
scan and then reads the local `result`, never assigned on that branch, so
it raises `NameError`/`UnboundLocalError` for every oracle — even when all
commands exit 0; with `policy_id=None`, the final check reads the lookup
result instead of the scan result, so a failing scan after a successful
lookup raises nothing. -/
theorem claim_c10 (o : Oracle) (vm : VirtualMachine) (pid : String) (rest : List String)
    (hcr : vm.createdFlag = true) :
    (vm.execute_foreman_scap_client o (some pid)
        = (.error PyError.nameError,
           [RemoteOp.command ("foreman_scap_client " ++ pid) vm.ip_addr])) ∧
    ((o scapLookupCommand vm.ip_addr).return_code = 0 →
      (o scapLookupCommand vm.ip_addr).stdout = pid :: rest →
      (o ("foreman_scap_client " ++ pid) vm.ip_addr).return_code ≠ 0 →
      vm.execute_foreman_scap_client o none
        = (.ok (), [RemoteOp.command scapLookupCommand vm.ip_addr,
                    RemoteOp.command ("foreman_scap_client " ++ pid) vm.ip_addr])) := by
  constructor
  · simp [VirtualMachine.execute_foreman_scap_client, VirtualMachine.run, hcr]
  · intro h1 h2 _
    simp [VirtualMachine.execute_foreman_scap_client, VirtualMachine.run, hcr, h1, h2]

/-- C10 witness: with every command succeeding (`oGoodW`) the explicit-id
call still fails with `NameError`; with a successful lookup and a failing
scan (`oScapW`) the `None`-id call reports success. -/
theorem claim_c10_witness :
    (vm1W.execute_foreman_scap_client oGoodW (some "9")
        = (.error PyError.nameError,
           [RemoteOp.command "foreman_scap_client 9" vm1W.ip_addr])) ∧
    vm1W.execute_foreman_scap_client oScapW none
        = (.ok (), [RemoteOp.command scapLookupCommand vm1W.ip_addr,
                    RemoteOp.command "foreman_scap_client 9" vm1W.ip_addr]) :=
  ⟨(claim_c10 oGoodW vm1W "9" [] rfl).1,
   (claim_c10 oScapW vm1W "9" [] rfl).2 rfl rfl (by decide)⟩

/-- C2 counterexample: with probe output containing no parenthesized token
("64 bytes from 4242.local: icmp_seq=1 ttl=64", both remote commands
succeeding), `create()` fails — but with an uncaught Python `IndexError`
from `output.split('(')[1]`, not with `VirtualMachineError`
(`ProvisioningError`), refuting the claimed failure mode. -/
theorem claim_c2_counterexample :
    (vm0W.create oNoParenW).1 = Except.error PyError.indexError ∧
    PyError.isVirtualMachineError PyError.indexError = false := ⟨rfl, rfl⟩

/-- C2 amended: after a successful `create()`, `resolvedAddress` equals the
text between the first `'('` and the next `')'` of the probe output
(whenever such a parenthesized token exists); when the output contains no
`'('` at all, `create()` fails with an uncaught `IndexError` — not with
`VirtualMachineError`/`ProvisioningError`. -/
theorem claim_c2_amended (o : Oracle) (vm : VirtualMachine) (ti hn dm : String)
    (h0 : vm.createdFlag = false)
    (hti : vm.target_imageE = .ok ti) (hhn : vm.hostnameE = .ok hn)
    (hdm : vm.domainE = .ok dm)
    (hsnap : (o (snapGuestCommand vm ti hn dm) (some vm.provisioning_server)).return_code = 0)
    (hping : (o vm.pingCommand (some vm.provisioning_server)).return_code = 0) :
    (∀ pre tok suf : List Char,
      (String.join (o vm.pingCommand (some vm.provisioning_server)).stdout).data
          = pre ++ '(' :: (tok ++ ')' :: suf) →
      '(' ∉ pre → '(' ∉ tok → ')' ∉ tok →
      vm.create o = (.ok { vm with ip_addr := some (String.mk tok), createdFlag := true },
        [RemoteOp.command (snapGuestCommand vm ti hn dm) (some vm.provisioning_server),
         RemoteOp.command vm.pingCommand (some vm.provisioning_server)])) ∧
    ('(' ∉ (String.join (o vm.pingCommand (some vm.provisioning_server)).stdout).data →
      vm.create o = (.error PyError.indexError,
        [RemoteOp.command (snapGuestCommand vm ti hn dm) (some vm.provisioning_server),
         RemoteOp.command vm.pingCommand (some vm.provisioning_server)])) := by
  constructor
  · intro pre tok suf hout hpre htok1 htok2
    rw [VirtualMachine.create, h0]
    simp only [Bool.false_eq_true, if_false, hti, hhn, hdm, hsnap]
    rw [hout, parseIpAddr_token hpre htok1 htok2]
    simp [hping]
  · intro hnp
    rw [VirtualMachine.create, h0]
    simp only [Bool.false_eq_true, if_false, hti, hhn, hdm, hsnap]
    rw [parseIpAddr_no_paren hnp]
    simp [hping]

/-- C2 witness: the fixture probe output
`"PING 4242.local (192.0.2.5) 56(84) bytes of data."` yields
`resolvedAddress = "192.0.2.5"`. -/
theorem claim_c2_witness :
    vm0W.create oGoodW
      = (.ok { vm0W with ip_addr := some (String.mk "192.0.2.5".data), createdFlag := true },
         [RemoteOp.command (snapGuestCommand vm0W "4242.example.com" "4242.example.com"
              "example.com") (some vm0W.provisioning_server),
          RemoteOp.command vm0W.pingCommand (some vm0W.provisioning_server)]) :=
  (claim_c2_amended oGoodW vm0W "4242.example.com" "4242.example.com" "example.com"
      rfl rfl rfl rfl (by decide) (by decide)).1
    "PING 4242.local ".data "192.0.2.5".data " 56(84) bytes of data.".data
    (by decide) (by decide) (by decide) (by decide)

end Robottelo
